import Mathlib

/-!
Verification of Googl-1.5.0 (src/Googl-1.5.0/main.py).

Shallow embedding notes.

The program evaluates a line of text by (1) replacing every caret with a
double star, (2) parsing it with the CPython ast module in exec mode, and
(3) walking the resulting statement list.  CPython parsing is an external
library, so the embedding models the pipeline from the parse result on: the
type Stmt mirrors the shapes the code inspects (ast.Assign with a list of
targets, ast.Expr, and every other statement kind collapsed into Stmt.other),
and Expr mirrors the expression nodes the evaluator inspects (ast.Constant,
ast.Name, ast.BinOp, ast.UnaryOp, ast.Call, plus ast.Attribute and
ast.Subscript as representatives of the nodes that fall through to the
final raise).  solve_math_expression therefore takes an
Except Unit (List Stmt): the error case stands for a SyntaxError raised by
ast.parse, which the try/except converts to the None sentinel.  The caret
substitution, which IS code of this program, is modelled separately on the
character list (caretSubst / preprocess).

Values: Python numbers are modelled exactly as rationals (Val.num), which
conflates int with the floats that happen to be exactly representable and
replaces floating-point rounding by exact arithmetic; none of the claims
under verification depends on rounding.  The float constants of the math
module (pi, e, tau, inf, nan) and the results of applying its
transcendental functions are not rationals, so they are modelled as
uninterpreted symbolic floats (Val.sym applied to the function or constant
name and the argument list); arithmetic on a symbolic float yields a
symbolic float.  Python str, bool, None and function objects are modelled
directly.  Simplifications that no claim touches: string formatting with
the percent operator is modelled as a TypeError, bytes, complex and
ellipsis literals are omitted from the literal grammar, and a repetition
such as a string times a whole-valued float is accepted because the model
cannot distinguish the float 2.0 from the int 2.

The Python global dict named variables is modelled as an explicit
association list threaded through the evaluation (first match wins on
lookup, in-place update on rebinding, append on fresh binding), so the
non-atomicity of solve_math_expression is observable in the returned state.
-/

/-- Literal constants as carried by ast.Constant nodes (numeric, string,
boolean and None literals; see the embedding notes for omitted kinds). -/
inductive Lit where
  | num : Rat → Lit
  | str : String → Lit
  | boolL : Bool → Lit
  | noneL : Lit

/-- Binary operator kinds of ast.BinOp.  The first six are the keys of
allowed_ops (main.py lines 9-17); the rest are Python binary operators that
are not in that dict. -/
inductive BOp where
  | add | sub | mult | div | pow | mod
  | floorDiv | matMult | lshift | rshift | bitOr | bitXor | bitAnd

/-- Unary operator kinds of ast.UnaryOp.  Only uSub (ast.USub) is a key of
allowed_ops. -/
inductive UOp where
  | uSub | uAdd | uNot | uInvert

/-- Expression nodes, mirroring the ast node classes inspected by
safe_eval_expr (main.py lines 28-52).  attr and subscript stand for
ast.Attribute and ast.Subscript, which reach the final raise. -/
inductive Expr where
  | const : Lit → Expr
  | name : String → Expr
  | binOp : BOp → Expr → Expr → Expr
  | unaryOp : UOp → Expr → Expr
  | call : Expr → List Expr → Expr
  | attr : Expr → String → Expr
  | subscript : Expr → Expr → Expr

/-- Assignment targets, mirroring what solve_math_expression checks with
isinstance(node.targets[0], ast.Name): a bare name, a tuple pattern (as in
a, b = ...), or another non-name target shape. -/
inductive Target where
  | name : String → Target
  | tupleT : List Target → Target
  | attrT : Target

/-- Statements of the parsed body (main.py lines 60-70): ast.Assign with its
target list, ast.Expr, and every other statement class (import, for, while,
if, augmented assignment, function definition, ...) collapsed into other,
tagged with its kind for readability. -/
inductive Stmt where
  | assign : List Target → Expr → Stmt
  | exprStmt : Expr → Stmt
  | other : String → Stmt

/-- Runtime values (see the embedding notes): exact rationals for Python
numbers, strings, booleans, None, math-module function objects identified
by name, and uninterpreted symbolic floats sym f args. -/
inductive Val where
  | num : Rat → Val
  | str : String → Val
  | boolV : Bool → Val
  | noneV : Val
  | func : String → Val
  | sym : String → List Val → Val

/-- Exceptions that safe_eval_expr and the operator applications can raise;
all of them are subclasses of Exception in Python and therefore are caught
by the except clause of solve_math_expression. -/
inductive EvalErr where
  | unknownName : String → EvalErr
  | disallowedFunction : String → EvalErr
  | unsupportedExpression : EvalErr
  | typeFailure : EvalErr
  | notCallable : EvalErr
  | attributeFailure : EvalErr
  | zeroDivision : EvalErr

/-- The global dict named variables (main.py line 26), as an explicit
association list. -/
abbrev Variables := List (String × Val)

/-- Python dict update semantics for variables[name] = value: rebind in
place if the key exists, append otherwise. -/
def setVar : Variables → String → Val → Variables
  | [], x, v => [(x, v)]
  | (y, w) :: rest, x, v =>
    if y = x then (y, v) :: rest else (y, w) :: setVar rest x v

/-- The dict comprehension of main.py line 20: every attribute of the math
module whose name does not start with a double underscore, in dir order.
Entries that are functions become Val.func; the five float-valued module
attributes (e, inf, nan, pi, tau) become symbolic float constants.
The name list is dir(math) of CPython 3.10. -/
def allowed_funcs : List (String × Val) :=
  [("acos", .func "acos"), ("acosh", .func "acosh"), ("asin", .func "asin"),
   ("asinh", .func "asinh"), ("atan", .func "atan"), ("atan2", .func "atan2"),
   ("atanh", .func "atanh"), ("ceil", .func "ceil"), ("comb", .func "comb"),
   ("copysign", .func "copysign"), ("cos", .func "cos"), ("cosh", .func "cosh"),
   ("degrees", .func "degrees"), ("dist", .func "dist"), ("e", .sym "e" []),
   ("erf", .func "erf"), ("erfc", .func "erfc"), ("exp", .func "exp"),
   ("expm1", .func "expm1"), ("fabs", .func "fabs"),
   ("factorial", .func "factorial"), ("floor", .func "floor"),
   ("fmod", .func "fmod"), ("frexp", .func "frexp"), ("fsum", .func "fsum"),
   ("gamma", .func "gamma"), ("gcd", .func "gcd"), ("hypot", .func "hypot"),
   ("inf", .sym "inf" []), ("isclose", .func "isclose"),
   ("isfinite", .func "isfinite"), ("isinf", .func "isinf"),
   ("isnan", .func "isnan"), ("isqrt", .func "isqrt"), ("lcm", .func "lcm"),
   ("ldexp", .func "ldexp"), ("lgamma", .func "lgamma"), ("log", .func "log"),
   ("log10", .func "log10"), ("log1p", .func "log1p"), ("log2", .func "log2"),
   ("modf", .func "modf"), ("nan", .sym "nan" []),
   ("nextafter", .func "nextafter"), ("perm", .func "perm"),
   ("pi", .sym "pi" []), ("pow", .func "pow"), ("prod", .func "prod"),
   ("radians", .func "radians"), ("remainder", .func "remainder"),
   ("sin", .func "sin"), ("sinh", .func "sinh"),
   ("sqrt", .func "sqrt"), ("tan", .func "tan"), ("tanh", .func "tanh"),
   ("tau", .sym "tau" []), ("trunc", .func "trunc"), ("ulp", .func "ulp")]

/-- The constants dict of main.py line 23. -/
def constants : List (String × Val) :=
  [("pi", .sym "pi" []), ("e", .sym "e" [])]

/-- Membership of a binary operator class in allowed_ops. -/
def allowedBinOp : BOp → Bool
  | .add | .sub | .mult | .div | .pow | .mod => true
  | _ => false

/-- Membership of a unary operator class in allowed_ops: only ast.USub. -/
def allowedUnaryOp : UOp → Bool
  | .uSub => true
  | _ => false

/-- Numeric coercion used by the arithmetic operators: exact numbers are
themselves, booleans coerce to 0 and 1 as in Python, everything else is
not an exact number. -/
def numQ : Val → Option Rat
  | .num q => some q
  | .boolV b => some (if b then 1 else 0)
  | _ => none

/-- Whether a value is a symbolic float (a math constant or the result of a
math-module function). -/
def isFloatSym : Val → Bool
  | .sym _ _ => true
  | _ => false

/-- A value an arithmetic operator accepts: an exact number, a boolean, or
a symbolic float. -/
def numericish (v : Val) : Bool := (numQ v).isSome || isFloatSym v

/-- Fallback of an arithmetic operator when at least one operand is not an
exact number: a symbolic float result when both operands are numeric,
otherwise the TypeError Python raises. -/
def symOr (opName : String) (a b : Val) : Except EvalErr Val :=
  if numericish a && numericish b then .ok (.sym opName [a, b])
  else .error .typeFailure

/-- String repetition for the mult operator, as in Python sequence
repetition: a whole-number count repeats the string (a negative count
yields the empty string), anything else is a TypeError. -/
def strRepeat (s : String) (v : Val) : Except EvalErr Val :=
  match numQ v with
  | some y =>
    if y.den = 1 then .ok (.str (String.join (List.replicate y.num.toNat s)))
    else .error .typeFailure
  | none => .error .typeFailure

/-- Application of the operator-module function stored in allowed_ops for a
binary operator (main.py lines 10-15 and 42): exact arithmetic on numbers,
concatenation and repetition on strings, division and modulo by exact zero
raise ZeroDivisionError, a power with a non-integer exponent is a symbolic
float, and mismatched operand types raise TypeError. -/
def applyBin : BOp → Val → Val → Except EvalErr Val
  | .add, .str a, .str b => .ok (.str (a ++ b))
  | .add, a, b =>
    match numQ a, numQ b with
    | some x, some y => .ok (.num (x + y))
    | _, _ => symOr "add" a b
  | .sub, a, b =>
    match numQ a, numQ b with
    | some x, some y => .ok (.num (x - y))
    | _, _ => symOr "sub" a b
  | .mult, .str s, b => strRepeat s b
  | .mult, a, .str s => strRepeat s a
  | .mult, a, b =>
    match numQ a, numQ b with
    | some x, some y => .ok (.num (x * y))
    | _, _ => symOr "mul" a b
  | .div, a, b =>
    match numQ a, numQ b with
    | some x, some y =>
      if y = 0 then .error .zeroDivision else .ok (.num (x / y))
    | _, _ => symOr "div" a b
  | .mod, a, b =>
    match numQ a, numQ b with
    | some x, some y =>
      if y = 0 then .error .zeroDivision
      else .ok (.num (x - y * (Rat.floor (x / y) : Rat)))
    | _, _ => symOr "mod" a b
  | .pow, a, b =>
    match numQ a, numQ b with
    | some x, some y =>
      if y.den = 1 then
        if 0 ≤ y.num then .ok (.num (x ^ y.num.toNat))
        else if x = 0 then .error .zeroDivision
        else .ok (.num ((x ^ (-y.num).toNat)⁻¹))
      else symOr "pow" a b
    | _, _ => symOr "pow" a b
  | _, _, _ => .error .typeFailure

/-- Application of operator.neg for ast.USub (main.py lines 16 and 44). -/
def applyNeg : Val → Except EvalErr Val
  | v =>
    match numQ v with
    | some x => .ok (.num (-x))
    | none => if isFloatSym v then .ok (.sym "neg" [v]) else .error .typeFailure

/-- Calling a value fetched from allowed_funcs (main.py line 49): a function
object yields the uninterpreted result of that math function on the
arguments; the float-valued entries (pi, e, tau, inf, nan) are not callable
and raise TypeError. -/
def applyCall : Val → List Val → Except EvalErr Val
  | .func n, vs => .ok (.sym n vs)
  | _, _ => .error .notCallable

/-- Identifier resolution of main.py lines 32-40: the variables dict first,
then allowed_funcs, then constants, and otherwise the ValueError whose
message names the unknown variable or function. -/
def resolveName (vars : Variables) (id : String) : Except EvalErr Val :=
  match List.lookup id vars with
  | some v => .ok v
  | none =>
    match List.lookup id allowed_funcs with
    | some f => .ok f
    | none =>
      match List.lookup id constants with
      | some c => .ok c
      | none => .error (.unknownName id)

/-- The literal value carried by an ast.Constant node. -/
def litVal : Lit → Val
  | .num q => .num q
  | .str s => .str s
  | .boolL b => .boolV b
  | .noneL => .noneV

mutual
/-- safe_eval_expr of main.py lines 28-52.  Branch order follows the
source: constants, names, binary ops restricted to allowed_ops, unary ops
restricted to allowed_ops, calls (where node.func.id raises AttributeError
unless the callee is a bare name, a callee outside allowed_funcs raises the
not-allowed ValueError, and arguments are evaluated left to right only
after that check), and every remaining node shape raises the unsupported
ValueError.  The variables dict is read but never written here. -/
def safe_eval_expr (vars : Variables) : Expr → Except EvalErr Val
  | .const l => .ok (litVal l)
  | .name id => resolveName vars id
  | .binOp op l r =>
    if allowedBinOp op then
      match safe_eval_expr vars l with
      | .error e => .error e
      | .ok a =>
        match safe_eval_expr vars r with
        | .error e => .error e
        | .ok b => applyBin op a b
    else .error .unsupportedExpression
  | .unaryOp op e =>
    if allowedUnaryOp op then
      match safe_eval_expr vars e with
      | .error err => .error err
      | .ok a => applyNeg a
    else .error .unsupportedExpression
  | .call f args =>
    match f with
    | .name fn =>
      match List.lookup fn allowed_funcs with
      | some entry =>
        match evalArgs vars args with
        | .error e => .error e
        | .ok vs => applyCall entry vs
      | none => .error (.disallowedFunction fn)
    | _ => .error .attributeFailure
  | .attr _ _ => .error .unsupportedExpression
  | .subscript _ _ => .error .unsupportedExpression

/-- Left-to-right evaluation of call arguments (main.py line 48). -/
def evalArgs (vars : Variables) : List Expr → Except EvalErr (List Val)
  | [] => .ok []
  | e :: es =>
    match safe_eval_expr vars e with
    | .error err => .error err
    | .ok v =>
      match evalArgs vars es with
      | .error err => .error err
      | .ok vs => .ok (v :: vs)
end

/-- Outcome of the statement loop of solve_math_expression when no
exception is raised: either the loop ran to completion with a final value
of the result variable, or an early return with one of the two literal
strings fired. -/
inductive BodyOut where
  | done : Val → BodyOut
  | early : String → BodyOut

/-- The statement loop of main.py lines 60-70, threading the variables
dict and the running result (initially None).  An assignment whose target
list is not exactly one bare name returns the string Invalid assignment
before evaluating anything; a statement that is neither ast.Assign nor
ast.Expr returns the string Unsupported statement; an assignment evaluates
its right-hand side, stores it, and makes it the result; an expression
statement makes its value the result.  A raised exception aborts the loop,
keeping the variable bindings already made. -/
def runBody : List Stmt → Variables → Val → Except EvalErr BodyOut × Variables
  | [], vars, result => (.ok (.done result), vars)
  | stmt :: rest, vars, result =>
    match stmt with
    | .assign targets value =>
      match targets with
      | [Target.name x] =>
        match safe_eval_expr vars value with
        | .error e => (.error e, vars)
        | .ok v => runBody rest (setVar vars x v) v
      | _ => (.ok (.early "Invalid assignment"), vars)
    | .exprStmt e =>
      match safe_eval_expr vars e with
      | .error err => (.error err, vars)
      | .ok v => runBody rest vars v
    | .other _ => (.ok (.early "Unsupported statement"), vars)

/-- solve_math_expression of main.py lines 54-73, from the parse result on
(the caret substitution that precedes parsing is preprocess below; the
error case of the argument is a SyntaxError from ast.parse).  The except
clause converts any raised exception into the Python None sentinel,
modelled as Val.noneV; the two early returns hand back their literal
strings as ordinary Python string values; otherwise the final value of
result is returned (still None for an empty body).  The second component
is the state of the global variables dict after the call. -/
def solve_math_expression (parsed : Except Unit (List Stmt)) (vars : Variables) :
    Val × Variables :=
  match parsed with
  | .error _ => (.noneV, vars)
  | .ok body =>
    match runBody body vars .noneV with
    | (.ok (.done r), vars2) => (r, vars2)
    | (.ok (.early s), vars2) => (.str s, vars2)
    | (.error _, vars2) => (.noneV, vars2)

/-- The caret substitution of main.py line 56, character by character:
expr.replace with a one-character pattern replaces every occurrence,
anywhere in the string. -/
def caretSubst : List Char → List Char
  | [] => []
  | c :: cs =>
    if c = Char.ofNat 94 then Char.ofNat 42 :: Char.ofNat 42 :: caretSubst cs
    else c :: caretSubst cs

/-- Preprocessing applied to the whole input line before ast.parse. -/
def preprocess (s : String) : String := String.mk (caretSubst s.data)

/-- One entry of the questions list of the knowledge file. -/
structure KEntry where
  question : String
  answer : String

/-- The knowledge base structure loaded from JSON. -/
structure KnowledgeBase where
  questions : List KEntry

/-- What opening and parsing the knowledge file can come to; the
environment of load_knowledge_base.  notFound is FileNotFoundError from
open, readFail any other OSError from reading, parseFail a JSONDecodeError
from json.load, and parsed a successful parse. -/
inductive FileOutcome where
  | notFound : FileOutcome
  | readFail : FileOutcome
  | parseFail : FileOutcome
  | parsed : KnowledgeBase → FileOutcome

/-- The failures load_knowledge_base lets escape. -/
inductive LoadErr where
  | readFail : LoadErr
  | parseFail : LoadErr

/-- load_knowledge_base of main.py lines 77-82: only FileNotFoundError is
caught and replaced by the empty structure; every other read or parse
failure propagates. -/
def load_knowledge_base : FileOutcome → Except LoadErr KnowledgeBase
  | .notFound => .ok ⟨[]⟩
  | .readFail => .error .readFail
  | .parseFail => .error .parseFail
  | .parsed kb => .ok kb

/-- The scan inside get_answer_for_question: first entry whose question
field equals the query exactly, by string equality. -/
def scanQuestions (question : String) : List KEntry → Option String
  | [] => none
  | q :: rest =>
    if q.question = question then some q.answer
    else scanQuestions question rest

/-- get_answer_for_question of main.py lines 92-95: linear scan of the
questions list in stored order; falling off the loop returns Python None,
modelled as Option.none. -/
def get_answer_for_question (question : String) (knowledge_base : KnowledgeBase) :
    Option String :=
  scanQuestions question knowledge_base.questions

mutual
/-- Whether an expression contains an attribute access or a subscript
anywhere inside it. -/
def containsUnsafe : Expr → Bool
  | .const _ => false
  | .name _ => false
  | .binOp _ l r => containsUnsafe l || containsUnsafe r
  | .unaryOp _ e => containsUnsafe e
  | .call f args => containsUnsafe f || containsUnsafeList args
  | .attr _ _ => true
  | .subscript _ _ => true

/-- Whether any expression of a list contains an attribute access or a
subscript. -/
def containsUnsafeList : List Expr → Bool
  | [] => false
  | e :: es => containsUnsafe e || containsUnsafeList es
end

/-- The target-list shape solve_math_expression accepts for an assignment:
exactly one target and that target a bare name (the negation of the check
on main.py line 62). -/
def isSingleNameTarget : List Target → Bool
  | [Target.name _] => true
  | _ => false

mutual
/-- Helper: an expression containing an attribute access or a subscript
never evaluates; some exception is always raised. -/
theorem unsafe_eval_err :
    ∀ e, containsUnsafe e = true → ∀ vars, ∃ err, safe_eval_expr vars e = .error err
  | .const l, h => by simp [containsUnsafe] at h
  | .name _, h => by simp [containsUnsafe] at h
  | .binOp op l r, h => by
    intro vars
    simp only [containsUnsafe, Bool.or_eq_true] at h
    cases hop : allowedBinOp op with
    | false => exact ⟨.unsupportedExpression, by simp [safe_eval_expr, hop]⟩
    | true =>
      cases h with
      | inl hl =>
        obtain ⟨errl, hevl⟩ := unsafe_eval_err l hl vars
        exact ⟨errl, by simp [safe_eval_expr, hop, hevl]⟩
      | inr hr =>
        cases hevl : safe_eval_expr vars l with
        | error e => exact ⟨e, by simp [safe_eval_expr, hop, hevl]⟩
        | ok a =>
          obtain ⟨errr, hevr⟩ := unsafe_eval_err r hr vars
          exact ⟨errr, by simp [safe_eval_expr, hop, hevl, hevr]⟩
  | .unaryOp op e, h => by
    intro vars
    simp only [containsUnsafe] at h
    cases hop : allowedUnaryOp op with
    | false => exact ⟨.unsupportedExpression, by simp [safe_eval_expr, hop]⟩
    | true =>
      obtain ⟨err, hev⟩ := unsafe_eval_err e h vars
      exact ⟨err, by simp [safe_eval_expr, hop, hev]⟩
  | .call f args, h => by
    intro vars
    simp only [containsUnsafe, Bool.or_eq_true] at h
    cases f with
    | name fn =>
      have hargs : containsUnsafeList args = true := by
        cases h with
        | inl hf => simp [containsUnsafe] at hf
        | inr ha => exact ha
      cases hlook : List.lookup fn allowed_funcs with
      | none => exact ⟨.disallowedFunction fn, by simp [safe_eval_expr, hlook]⟩
      | some entry =>
        obtain ⟨err, hev⟩ := unsafeList_eval_err args hargs vars
        exact ⟨err, by simp [safe_eval_expr, hlook, hev]⟩
    | const l => exact ⟨.attributeFailure, rfl⟩
    | binOp op l r => exact ⟨.attributeFailure, rfl⟩
    | unaryOp op e => exact ⟨.attributeFailure, rfl⟩
    | call g bs => exact ⟨.attributeFailure, rfl⟩
    | attr e s => exact ⟨.attributeFailure, rfl⟩
    | subscript e i => exact ⟨.attributeFailure, rfl⟩
  | .attr _ _, _ => fun _ => ⟨.unsupportedExpression, rfl⟩
  | .subscript _ _, _ => fun _ => ⟨.unsupportedExpression, rfl⟩

/-- Helper: an argument list containing an attribute access or a subscript
never evaluates. -/
theorem unsafeList_eval_err :
    ∀ es, containsUnsafeList es = true → ∀ vars, ∃ err, evalArgs vars es = .error err
  | [], h => by simp [containsUnsafeList] at h
  | e :: es, h => by
    intro vars
    simp only [containsUnsafeList, Bool.or_eq_true] at h
    cases h with
    | inl he =>
      obtain ⟨err, hev⟩ := unsafe_eval_err e he vars
      exact ⟨err, by simp [evalArgs, hev]⟩
    | inr hes =>
      cases hev : safe_eval_expr vars e with
      | error err => exact ⟨err, by simp [evalArgs, hev]⟩
      | ok v =>
        obtain ⟨err, hevs⟩ := unsafeList_eval_err es hes vars
        exact ⟨err, by simp [evalArgs, hev, hevs]⟩
end

/-- Helper: a statement list that runs to completion composes with a
continuation; appending further statements resumes from the final variable
state, with the running result carried over. -/
theorem runBody_append (rest : List Stmt) :
    ∀ stmts vars r0 v vars1,
      runBody stmts vars r0 = (.ok (.done v), vars1) →
      runBody (stmts ++ rest) vars r0 = runBody rest vars1 v := by
  intro stmts
  induction stmts with
  | nil =>
    intro vars r0 v vars1 h
    simp only [runBody, Prod.mk.injEq, Except.ok.injEq, BodyOut.done.injEq] at h
    obtain ⟨rfl, rfl⟩ := h
    simp
  | cons stmt stmts ih =>
    intro vars r0 v vars1 h
    cases stmt with
    | assign targets value =>
      rcases targets with _ | ⟨t, ts⟩
      · simp [runBody] at h
      · cases t with
        | name x =>
          rcases ts with _ | ⟨t2, ts2⟩
          · simp only [List.cons_append]
            simp only [runBody] at h ⊢
            cases hev : safe_eval_expr vars value with
            | error e => rw [hev] at h; simp at h
            | ok w => rw [hev] at h; exact ih _ _ _ _ h
          · simp [runBody] at h
        | tupleT elems => simp [runBody] at h
        | attrT => simp [runBody] at h
    | exprStmt e =>
      simp only [List.cons_append]
      simp only [runBody] at h ⊢
      cases hev : safe_eval_expr vars e with
      | error err => rw [hev] at h; simp at h
      | ok w => rw [hev] at h; exact ih _ _ _ _ h
    | other k => simp [runBody] at h

/-- Helper: an assignment whose target list is not exactly one bare name
makes solve_math_expression return the string Invalid assignment at once,
with the variables dict untouched. -/
theorem assign_bad_target_early :
    ∀ targets, isSingleNameTarget targets = false → ∀ value rest vars,
      solve_math_expression (.ok (.assign targets value :: rest)) vars =
        (Val.str "Invalid assignment", vars) := by
  intro targets h value rest vars
  rcases targets with _ | ⟨t, ts⟩
  · rfl
  · cases t with
    | name x =>
      rcases ts with _ | ⟨t2, ts2⟩
      · simp [isSingleNameTarget] at h
      · rfl
    | tupleT elems => rfl
    | attrT => rfl

/-- Helper: a statement that is neither an assignment nor an expression
statement makes solve_math_expression return the string Unsupported
statement at once. -/
theorem other_stmt_early : ∀ k rest vars,
    solve_math_expression (.ok (.other k :: rest)) vars =
      (Val.str "Unsupported statement", vars) := by
  intro k rest vars
  rfl

/-- Helper: the scan of the questions list returns the answer of the first
entry whose question field matches exactly. -/
theorem scan_first_match :
    ∀ question pre e post, (∀ p ∈ pre, p.question ≠ question) → e.question = question →
      scanQuestions question (pre ++ e :: post) = some e.answer := by
  intro question pre
  induction pre with
  | nil =>
    intro e post _ he
    simp [scanQuestions, he]
  | cons p ps ih =>
    intro e post hpre he
    have hp : p.question ≠ question := hpre p (by simp)
    simp only [List.cons_append, scanQuestions]
    rw [if_neg hp]
    exact ih e post (fun q hq => hpre q (by simp [hq])) he

/-- Helper: the scan of the questions list returns Python None when no
entry matches exactly. -/
theorem scan_absent :
    ∀ question entries, (∀ p ∈ entries, p.question ≠ question) →
      scanQuestions question entries = none := by
  intro question entries
  induction entries with
  | nil => intro _; rfl
  | cons p ps ih =>
    intro h
    simp only [scanQuestions]
    rw [if_neg (h p (by simp))]
    exact ih (fun q hq => h q (by simp [hq]))

/-- Helper: no caret survives the substitution, anywhere in the string. -/
theorem caret_gone : ∀ l : List Char, List.count (Char.ofNat 94) (caretSubst l) = 0 := by
  intro l
  induction l with
  | nil => rfl
  | cons c cs ih =>
    by_cases hc : c = Char.ofNat 94
    · simp only [caretSubst, if_pos hc, List.count_cons, ih]
      decide
    · simp only [caretSubst, if_neg hc, List.count_cons, ih]
      simp [hc]

/-- C1, counterexample: a multi-target assignment does not produce the None
sentinel; solve_math_expression returns the Python string Invalid
assignment (an early return inside the try block, not a caught exception),
and a non-expression statement likewise returns the string Unsupported
statement.  Both are distinct from the None sentinel, so the claim that
every failing statement yields None is false on the code. -/
theorem claim_C1_counterexample :
    (solve_math_expression
      (.ok [.assign [.tupleT [.name "a", .name "b"]] (.const (.num 1))]) [] =
      (Val.str "Invalid assignment", [])) ∧
    (solve_math_expression (.ok [.other "import os"]) [] =
      (Val.str "Unsupported statement", [])) ∧
    ((Val.str "Invalid assignment" = Val.noneV) = False) ∧
    ((Val.str "Unsupported statement" = Val.noneV) = False) := by
  refine ⟨rfl, rfl, ?_, ?_⟩ <;> simp

/-- C1, amended: a parse failure and any exception raised while evaluating
a statement (unknown identifier, disallowed function, division by zero,
type errors) make solve_math_expression return the None sentinel, and the
function is total, never propagating an exception; but the two structural
rejections are early returns of Python strings, not the sentinel: an
assignment whose target list is not exactly one bare name returns the
string Invalid assignment and a statement that is neither an assignment
nor an expression statement returns the string Unsupported statement. -/
theorem claim_C1 :
    (∀ vars, solve_math_expression (.error ()) vars = (Val.noneV, vars)) ∧
    (∀ body vars err vars2, runBody body vars Val.noneV = (.error err, vars2) →
      solve_math_expression (.ok body) vars = (Val.noneV, vars2)) ∧
    (∀ targets, isSingleNameTarget targets = false → ∀ value rest vars,
      solve_math_expression (.ok (.assign targets value :: rest)) vars =
        (Val.str "Invalid assignment", vars)) ∧
    (∀ k rest vars,
      solve_math_expression (.ok (.other k :: rest)) vars =
        (Val.str "Unsupported statement", vars)) := by
  refine ⟨fun vars => rfl, ?_, assign_bad_target_early, other_stmt_early⟩
  intro body vars err vars2 h
  simp [solve_math_expression, h]

/-- C1, witness: an unknown identifier raises and the call returns the
None sentinel; a two-target assignment takes the Invalid assignment early
return. -/
theorem claim_C1_witness :
    (solve_math_expression (.ok [.exprStmt (.name "nosuch")]) [] = (Val.noneV, [])) ∧
    (solve_math_expression
      (.ok [.assign [.name "x", .name "y"] (.const (.num 5))]) [] =
      (Val.str "Invalid assignment", [])) :=
  ⟨claim_C1.2.1 [.exprStmt (.name "nosuch")] [] (.unknownName "nosuch") [] rfl,
   claim_C1.2.2.1 [.name "x", .name "y"] rfl (.const (.num 5)) [] []⟩

/-- C2: evaluating a call of the name with two leading underscores around
the word import soft-fails to the None sentinel because that name is not
in allowed_funcs; any expression containing an attribute access or a
subscript raises, and at the top level soft-fails to the None sentinel;
and a call can only ever evaluate when its callee is a bare name bound in
allowed_funcs, so nothing outside the safelist is applied. -/
theorem claim_C2 :
    (solve_math_expression
      (.ok [.exprStmt (.call (.name "__import__") [.const (.str "os")])]) [] =
      (Val.noneV, [])) ∧
    (∀ vars e, containsUnsafe e = true →
      ∃ err, safe_eval_expr vars e = .error err) ∧
    (∀ vars e, containsUnsafe e = true →
      solve_math_expression (.ok [.exprStmt e]) vars = (Val.noneV, vars)) ∧
    (∀ vars f args v, safe_eval_expr vars (.call f args) = .ok v →
      ∃ fn entry, f = Expr.name fn ∧ List.lookup fn allowed_funcs = some entry) := by
  refine ⟨rfl, fun vars e h => unsafe_eval_err e h vars, ?_, ?_⟩
  · intro vars e h
    obtain ⟨err, herr⟩ := unsafe_eval_err e h vars
    simp [solve_math_expression, runBody, herr]
  · intro vars f args v h
    cases f with
    | name fn =>
      refine ⟨fn, ?_⟩
      cases hlook : List.lookup fn allowed_funcs with
      | none => simp [safe_eval_expr, hlook] at h
      | some entry => exact ⟨entry, rfl, rfl⟩
    | const l => simp [safe_eval_expr] at h
    | binOp op l r => simp [safe_eval_expr] at h
    | unaryOp op e => simp [safe_eval_expr] at h
    | call g bs => simp [safe_eval_expr] at h
    | attr e s => simp [safe_eval_expr] at h
    | subscript e i => simp [safe_eval_expr] at h

/-- C2, witness: an attribute access soft-fails to the None sentinel. -/
theorem claim_C2_witness :
    solve_math_expression (.ok [.exprStmt (.attr (.name "math") "pi")]) [] =
      (Val.noneV, []) :=
  claim_C2.2.2.1 [] (.attr (.name "math") "pi") rfl

/-- C3: a bare identifier resolves through the variables dict first, then
allowed_funcs (yielding the stored entry, a function object for function
names), then constants, and an identifier in none of the three raises the
unknown-name ValueError (converted to the soft sentinel at the boundary). -/
theorem claim_C3 : ∀ vars id,
    (∀ v, List.lookup id vars = some v →
      safe_eval_expr vars (.name id) = .ok v) ∧
    (List.lookup id vars = none →
      ∀ f, List.lookup id allowed_funcs = some f →
        safe_eval_expr vars (.name id) = .ok f) ∧
    (List.lookup id vars = none → List.lookup id allowed_funcs = none →
      ∀ c, List.lookup id constants = some c →
        safe_eval_expr vars (.name id) = .ok c) ∧
    (List.lookup id vars = none → List.lookup id allowed_funcs = none →
      List.lookup id constants = none →
      safe_eval_expr vars (.name id) = .error (.unknownName id)) := by
  intro vars id
  refine ⟨?_, ?_, ?_, ?_⟩
  · intro v h
    simp [safe_eval_expr, resolveName, h]
  · intro h1 f h2
    simp [safe_eval_expr, resolveName, h1, h2]
  · intro h1 h2 c h3
    simp [safe_eval_expr, resolveName, h1, h2, h3]
  · intro h1 h2 h3
    simp [safe_eval_expr, resolveName, h1, h2, h3]

/-- C3, witness: a variable named pi shadows the registry entry, the bare
function names sqrt and sin evaluate to their function objects, and an
unbound name raises the unknown-name failure. -/
theorem claim_C3_witness :
    (safe_eval_expr [("pi", Val.num 3)] (.name "pi") = .ok (Val.num 3)) ∧
    (safe_eval_expr [] (.name "sqrt") = .ok (Val.func "sqrt")) ∧
    (safe_eval_expr [] (.name "sin") = .ok (Val.func "sin")) ∧
    (safe_eval_expr [] (.name "zzz") = .error (.unknownName "zzz")) :=
  ⟨(claim_C3 [("pi", Val.num 3)] "pi").1 (Val.num 3) rfl,
   (claim_C3 [] "sqrt").2.1 rfl (Val.func "sqrt") rfl,
   (claim_C3 [] "sin").2.1 rfl (Val.func "sin") rfl,
   (claim_C3 [] "zzz").2.2.2 rfl rfl rfl⟩

/-- C4, counterexample: a bare string literal does produce a value (the
string itself), and a sum of two string literals evaluates to their
concatenation, because the branch for ast.Constant accepts every literal
constant, not only numbers; so the claim that string literals used
arithmetically fail with UnsupportedExpression is false on the code. -/
theorem claim_C4_counterexample :
    (solve_math_expression (.ok [.exprStmt (.const (.str "abc"))]) [] =
      (Val.str "abc", [])) ∧
    (safe_eval_expr [] (.binOp .add (.const (.str "calc")) (.const (.str "ulus"))) =
      .ok (Val.str "calculus")) ∧
    ((∃ err, safe_eval_expr [] (.const (.str "abc")) = .error err) = False) := by
  refine ⟨rfl, rfl, ?_⟩
  refine eq_false ?_
  rintro ⟨err, h⟩
  exact Except.noConfusion h

/-- C4, amended: every expression shape other than literal constants
(numeric, string, boolean, None), identifiers, safelisted binary and unary
operations, and safelisted calls fails with the unsupported-expression
failure: attribute access, subscripting, a binary operator outside
allowed_ops, and a unary operator other than negation all do; loops,
conditionals and imports are rejected at statement level with the string
Unsupported statement, and a multi-target assignment with the string
Invalid assignment.  String literals, however, are literal constants: a
bare string literal evaluates to itself and a sum of string literals
concatenates. -/
theorem claim_C4 :
    (∀ vars e s, safe_eval_expr vars (.attr e s) = .error .unsupportedExpression) ∧
    (∀ vars e i, safe_eval_expr vars (.subscript e i) = .error .unsupportedExpression) ∧
    (∀ vars op l r, allowedBinOp op = false →
      safe_eval_expr vars (.binOp op l r) = .error .unsupportedExpression) ∧
    (∀ vars op e, allowedUnaryOp op = false →
      safe_eval_expr vars (.unaryOp op e) = .error .unsupportedExpression) ∧
    (∀ vars l, safe_eval_expr vars (.const l) = .ok (litVal l)) ∧
    (∀ vars s, safe_eval_expr vars (.const (.str s)) = .ok (Val.str s)) ∧
    (∀ vars a b,
      safe_eval_expr vars (.binOp .add (.const (.str a)) (.const (.str b))) =
        .ok (Val.str (a ++ b))) ∧
    (∀ targets, isSingleNameTarget targets = false → ∀ value rest vars,
      solve_math_expression (.ok (.assign targets value :: rest)) vars =
        (Val.str "Invalid assignment", vars)) ∧
    (∀ k rest vars,
      solve_math_expression (.ok (.other k :: rest)) vars =
        (Val.str "Unsupported statement", vars)) := by
  refine ⟨fun vars e s => rfl, fun vars e i => rfl, ?_, ?_,
    fun vars l => rfl, fun vars s => rfl, fun vars a b => rfl,
    assign_bad_target_early, other_stmt_early⟩
  · intro vars op l r h
    simp [safe_eval_expr, h]
  · intro vars op e h
    simp [safe_eval_expr, h]

/-- C4, witness: floor division and boolean negation are outside
allowed_ops and fail with the unsupported-expression failure. -/
theorem claim_C4_witness :
    (safe_eval_expr [] (.binOp .floorDiv (.const (.num 1)) (.const (.num 2))) =
      .error .unsupportedExpression) ∧
    (safe_eval_expr [] (.unaryOp .uNot (.const (.num 1))) =
      .error .unsupportedExpression) :=
  ⟨claim_C4.2.2.1 [] .floorDiv (.const (.num 1)) (.const (.num 2)) rfl,
   claim_C4.2.2.2.1 [] .uNot (.const (.num 1)) rfl⟩

/-- C5: statements run in order against the shared variables dict (a body
that completes composes with a continuation from its final state), an
assignment binds the evaluated right-hand side under the target name and
has that value as its result, the whole call returns the value of the last
statement, and the assignment round-trip x = 5 then x + 1 yields 6, both
as one two-statement input and as two calls sharing the variables dict. -/
theorem claim_C5 :
    (∀ rest stmts vars r0 v vars1,
      runBody stmts vars r0 = (.ok (.done v), vars1) →
      runBody (stmts ++ rest) vars r0 = runBody rest vars1 v) ∧
    (∀ vars x value v r0, safe_eval_expr vars value = .ok v →
      runBody [.assign [.name x] value] vars r0 = (.ok (.done v), setVar vars x v)) ∧
    (solve_math_expression (.ok [.assign [.name "x"] (.const (.num 5)),
        .exprStmt (.binOp .add (.name "x") (.const (.num 1)))]) [] =
      (Val.num 6, [("x", Val.num 5)])) ∧
    (solve_math_expression (.ok [.assign [.name "x"] (.const (.num 5))]) [] =
      (Val.num 5, [("x", Val.num 5)])) ∧
    (solve_math_expression
      (.ok [.exprStmt (.binOp .add (.name "x") (.const (.num 1)))])
      [("x", Val.num 5)] = (Val.num 6, [("x", Val.num 5)])) := by
  refine ⟨fun rest => runBody_append rest, ?_, ?_, rfl, ?_⟩
  · intro vars x value v r0 h
    simp [runBody, h]
  · simp [solve_math_expression, runBody, safe_eval_expr, resolveName, litVal,
      applyBin, allowedBinOp, numQ, setVar]
    norm_num
  · simp [solve_math_expression, runBody, safe_eval_expr, resolveName, litVal,
      applyBin, allowedBinOp, numQ, setVar]
    norm_num

/-- C5, witness: composing the assignment x = 5 with the statement x + 1
resumes from the updated variables dict. -/
theorem claim_C5_witness :
    runBody ([.assign [.name "x"] (.const (.num 5))] ++
        [.exprStmt (.binOp .add (.name "x") (.const (.num 1)))]) [] Val.noneV =
      runBody [.exprStmt (.binOp .add (.name "x") (.const (.num 1)))]
        [("x", Val.num 5)] (Val.num 5) :=
  claim_C5.1 [.exprStmt (.binOp .add (.name "x") (.const (.num 1)))]
    [.assign [.name "x"] (.const (.num 5))] [] Val.noneV (Val.num 5)
    [("x", Val.num 5)] rfl

/-- C6: the caret substitution rewrites every caret in the whole input to
a double star before parsing, including carets inside what would be string
literals; no caret survives; and the power expression that the
preprocessed text 2**3 parses to evaluates to 8. -/
theorem claim_C6 :
    (preprocess "2^3" = "2**3") ∧
    (∀ l : List Char, List.count (Char.ofNat 94) (caretSubst l) = 0) ∧
    (∀ s : String, List.count (Char.ofNat 94) (preprocess s).data = 0) ∧
    (preprocess "\"a^b\"" = "\"a**b\"") ∧
    (preprocess "x^2 ^ y" = "x**2 ** y") ∧
    (solve_math_expression
      (.ok [.exprStmt (.binOp .pow (.const (.num 2)) (.const (.num 3)))]) [] =
      (Val.num 8, [])) :=
  ⟨by decide, caret_gone, fun s => caret_gone s.data, by decide, by decide, rfl⟩

/-- C7: load_knowledge_base returns the parsed structure on a successful
read, the empty structure exactly when the file is missing, and lets any
other read or parse failure propagate. -/
theorem claim_C7 :
    (load_knowledge_base .notFound = .ok ⟨[]⟩) ∧
    (∀ kb, load_knowledge_base (.parsed kb) = .ok kb) ∧
    (load_knowledge_base .readFail = .error .readFail) ∧
    (load_knowledge_base .parseFail = .error .parseFail) :=
  ⟨rfl, fun _ => rfl, rfl, rfl⟩

/-- C8: get_answer_for_question scans the stored questions in order and
returns the answer of the first entry whose question field equals the
query exactly; with duplicate questions the first answer wins; lookup is
case-sensitive; and a query matching no entry yields Python None, not a
failure. -/
theorem claim_C8 :
    (∀ question pre e post, (∀ p ∈ pre, p.question ≠ question) →
      e.question = question →
      get_answer_for_question question ⟨pre ++ e :: post⟩ = some e.answer) ∧
    (∀ question entries, (∀ p ∈ entries, p.question ≠ question) →
      get_answer_for_question question ⟨entries⟩ = none) ∧
    (get_answer_for_question "q" ⟨[⟨"q", "first"⟩, ⟨"q", "second"⟩]⟩ =
      some "first") ∧
    (get_answer_for_question "Hi" ⟨[⟨"hi", "x"⟩]⟩ = none) := by
  refine ⟨?_, ?_, by decide, by decide⟩
  · intro question pre e post h1 h2
    exact scan_first_match question pre e post h1 h2
  · intro question entries h
    exact scan_absent question entries h

/-- C8, witness: with two entries sharing a question, the first answer in
stored order is returned. -/
theorem claim_C8_witness :
    get_answer_for_question "q" ⟨[⟨"q", "a"⟩, ⟨"q", "b"⟩]⟩ = some "a" :=
  claim_C8.1 "q" [] ⟨"q", "a"⟩ [⟨"q", "b"⟩] (by simp) rfl

/-- C9: allowed_funcs is built from every non-dunder attribute of the math
module (trigonometric functions such as sin and sinh included), so the
non-function names tau, inf and nan are registry entries and evaluate to
their float values, and pi and e are found in allowed_funcs (tau is not
in constants at all), before the constants dict would be consulted. -/
theorem claim_C9 :
    (safe_eval_expr [] (.name "tau") = .ok (Val.sym "tau" [])) ∧
    (safe_eval_expr [] (.name "inf") = .ok (Val.sym "inf" [])) ∧
    (safe_eval_expr [] (.name "nan") = .ok (Val.sym "nan" [])) ∧
    (List.lookup "tau" allowed_funcs = some (Val.sym "tau" [])) ∧
    (List.lookup "inf" allowed_funcs = some (Val.sym "inf" [])) ∧
    (List.lookup "nan" allowed_funcs = some (Val.sym "nan" [])) ∧
    (List.lookup "pi" allowed_funcs = some (Val.sym "pi" [])) ∧
    (List.lookup "e" allowed_funcs = some (Val.sym "e" [])) ∧
    (List.lookup "sin" allowed_funcs = some (Val.func "sin")) ∧
    (List.lookup "sinh" allowed_funcs = some (Val.func "sinh")) ∧
    (List.lookup "tau" constants = none) ∧
    (safe_eval_expr [] (.name "pi") = .ok (Val.sym "pi" [])) ∧
    (safe_eval_expr [] (.name "e") = .ok (Val.sym "e" [])) :=
  ⟨rfl, rfl, rfl, rfl, rfl, rfl, rfl, rfl, rfl, rfl, rfl, rfl, rfl⟩

/-- C10: solve_math_expression is not atomic on failure: after the input
x = 5 followed by 1/0, the call returns the None sentinel while the
variables dict retains the binding of x made by the first statement. -/
theorem claim_C10 :
    (solve_math_expression (.ok [.assign [.name "x"] (.const (.num 5)),
      .exprStmt (.binOp .div (.const (.num 1)) (.const (.num 0)))]) [] =
      (Val.noneV, [("x", Val.num 5)])) ∧
    (List.lookup "x" [("x", Val.num 5)] = some (Val.num 5)) :=
  ⟨rfl, rfl⟩
